import Mathlib

/-!
# Verification of the naev `opengl.c` texture / blit subsystem

Shallow embedding of the texture cache, coordinate/viewport math, sprite
addressing, transparency mapping and blit emission of `src/opengl.c`.

Modelling conventions:
* C `double` values are modelled as exact rationals (`ℚ`); the claims under
  scrutiny are about the exact arithmetic the code performs, "within floating
  tolerance".
* The C constant `M_PI` is modelled as a rational parameter `pi`; theorems
  constrain it to an interval containing every floating-point approximation
  of π.
* C `int` values are modelled as `ℤ` (or `ℕ` where the source guarantees
  non-negativity, e.g. loop counters and sizes); C integer division and
  modulus on non-negative operands agree with `Nat` division/modulus.
* GPU handles (`GLuint` from `glGenTextures`) and heap pointers (`malloc`
  results) are modelled as natural-number identifiers drawn from counters in
  the global state.
* External collaborators (`ndata_read`, `IMG_Load_RW`,
  `SDL_DisplayFormatAlpha`) are modelled as an environment
  `assets : String → Option Surface` delivering the already-converted
  surface, or `none` on any failure of that pipeline.
* Side effects that the claims talk about (warnings, `glDeleteTextures`,
  `free`) are recorded in an event log inside the global state.
-/

/-- Truncation of a rational toward zero, the semantics of a C cast from
`double` to `int`. -/
def truncQ (q : ℚ) : ℤ :=
  if q < 0 then -⌊-q⌋ else ⌊q⌋

/-- Loop body of `gl_pot` (opengl.c:110-116): `i = 1; while (i < n) i <<= 1;`.
The guard carries the invariant `1 ≤ i` (true at every call site, since `i`
starts at `1` and doubles), which also makes the loop terminating. -/
def gl_potAux (n i : ℕ) : ℕ :=
  if _h : 1 ≤ i ∧ i < n then gl_potAux n (i <<< 1) else i
termination_by n - i
decreasing_by
  simp only [Nat.shiftLeft_eq, pow_one]
  omega

/-- `gl_pot` (opengl.c:110-116): the closest power of two ≥ `n`
(for `n ≥ 1`). -/
def gl_pot (n : ℕ) : ℕ :=
  gl_potAux n 1

/-- A decoded image surface (`SDL_Surface`), as the core uses it: logical
size, a pixel-colour accessor and the transparent colour key.  The
byte-per-byte pixel decoding of `SDL_IsTrans`'s `switch (bpp)` is abstracted
into `pixels` returning the pixel's colour value directly. -/
structure Surface where
  w : ℕ
  h : ℕ
  pixels : ℕ → ℕ → ℕ
  colorkey : ℕ

/-- `SDL_IsTrans` (opengl.c:161-192): a pixel is transparent iff its colour
equals the surface's colour key. -/
def SDL_IsTrans (s : Surface) (x y : ℕ) : Bool :=
  s.pixels x y == s.colorkey

/-- `SDL_VFlipSurface` (opengl.c:125-150): flips the surface vertically. -/
def SDL_VFlipSurface (s : Surface) : Surface :=
  { s with pixels := fun x y => s.pixels x (s.h - 1 - y) }

/-- The byte size malloced by `SDL_MapTrans` (opengl.c:207):
`s->w*s->h/8 + ((s->w*s->h%8)?1:0)`. -/
def mapTransSize (s : Surface) : ℕ :=
  s.w * s.h / 8 + (if s.w * s.h % 8 ≠ 0 then 1 else 0)

/-- One iteration of the `SDL_MapTrans` inner loop (opengl.c:219):
`t[(i*s->w+j)/8] |= SDL_IsTrans(s,j,i) ? 0 : (1<<((i*s->w+j)%8));`
where `p = (i, j)` = (row, column).  The byte array `t` is modelled as a
byte-addressed memory `ℕ → ℕ`. -/
def mapTransStep (s : Surface) (t : ℕ → ℕ) (p : ℕ × ℕ) : ℕ → ℕ :=
  let idx := p.1 * s.w + p.2
  Function.update t (idx / 8)
    (t (idx / 8) ||| (if SDL_IsTrans s p.2 p.1 then 0 else 1 <<< (idx % 8)))

/-- The row-major enumeration of pixel coordinates `(i, j)` traversed by the
nested `for (i...) for (j...)` loops of `SDL_MapTrans` (opengl.c:217-219). -/
def pixelList (s : Surface) : List (ℕ × ℕ) :=
  (List.range s.h).flatMap fun i => (List.range s.w).map fun j => (i, j)

/-- `SDL_MapTrans` (opengl.c:204-222): builds the transparency bitset.  The
buffer starts zeroed (`memset(t,0,size)`), then each pixel ORs its bit in. -/
def SDL_MapTrans (s : Surface) : ℕ → ℕ :=
  (pixelList s).foldl (mapTransStep s) (fun _ => 0)

/-- A `glTexture` (from opengl.h, as populated in this file).  Doubles are
rationals; `texture` is the GPU handle; `trans` the optional transparency
byte array; `name` the optional owning path.  `ptr` models the `malloc`ed
address of the struct, i.e. C pointer identity. -/
structure glTexture where
  w : ℚ
  h : ℚ
  sx : ℚ
  sy : ℚ
  sw : ℚ
  sh : ℚ
  rw : ℚ
  rh : ℚ
  texture : ℕ
  trans : Option (ℕ → ℕ)
  name : Option String
  ptr : ℕ

/-- `gl_isTrans` (opengl.c:671-674):
`!(t->trans[(y*(int)(t->w)+x)/8] & (1<<((y*(int)(t->w)+x)%8)))`.
The C code does not null-check `t->trans`; the model reads an all-zero map in
that (undefined-behaviour) case. -/
def gl_isTrans (t : glTexture) (x y : ℕ) : Bool :=
  let idx := y * (truncQ t.w).toNat + x
  ((t.trans.getD (fun _ => 0)) (idx / 8)) &&& (1 <<< (idx % 8)) == 0

/-- A node of the texture cache linked list, `glTexList` (opengl.c:72-76).
`tex` is an `Option` because `gl_newImage` stores the result of
`gl_loadNewImage` without checking it for NULL. `used` is a C `int`. -/
structure glTexList where
  tex : Option glTexture
  used : ℤ

/-- Events observable through the claims: warnings, GPU-handle deletion
(`glDeleteTextures`) and host-memory frees. -/
inductive GLEvent where
  | warnFreeNull : GLEvent
  | warnNotFound : String → GLEvent
  | deleteTex : ℕ → GLEvent
  | freeTrans : ℕ → GLEvent
  | freeName : ℕ → GLEvent
  | freeTexMem : ℕ → GLEvent
deriving DecidableEq

/-- Global mutable state of the subsystem: the cache list `texture_list`
(opengl.c:77), the event log, and allocators for fresh pointers / GPU
handles. -/
structure GLState where
  texture_list : List glTexList
  events : List GLEvent
  nextPtr : ℕ
  nextHandle : ℕ

/-- The initial state: empty cache (`texture_list = NULL`). -/
def initGLState : GLState :=
  { texture_list := [], events := [], nextPtr := 0, nextHandle := 0 }

/-- `gl_loadImage` (opengl.c:451-473) together with
`gl_loadSurface`/`gl_prepareSurface` (opengl.c:344-443): sets up the texture
record with logical size `w,h`, default 1×1 sprite sheet, a freshly generated
GPU handle, and the power-of-two real size `rw,rh` produced by padding the
surface in `gl_prepareSurface`. -/
def gl_loadImage (surface : Surface) (st : GLState) : glTexture × GLState :=
  let t : glTexture :=
    { w := surface.w
      h := surface.h
      sx := 1
      sy := 1
      sw := surface.w
      sh := surface.h
      rw := gl_pot surface.w
      rh := gl_pot surface.h
      texture := st.nextHandle
      trans := none
      name := none
      ptr := st.nextPtr }
  (t, { st with nextHandle := st.nextHandle + 1, nextPtr := st.nextPtr + 1 })

/-- `gl_loadNewImage` (opengl.c:524-575): reads and decodes the image through
the external pipeline (`assets`), returns `none` if any step fails, else
vertically flips the surface, optionally builds the transparency map
(`flags & OPENGL_TEX_MAPTRANS`, modelled as the Bool `flags`), loads the
surface into a texture and records the path as its name. -/
def gl_loadNewImage (assets : String → Option Surface) (path : String)
    (flags : Bool) (st : GLState) : Option glTexture × GLState :=
  match assets path with
  | none => (none, st)
  | some temp =>
    let surface := SDL_VFlipSurface temp
    let trans := if flags then some (SDL_MapTrans surface) else none
    let (t, st') := gl_loadImage surface st
    (some { t with trans := trans, name := some path }, st')

/-- The cache-hit scan of `gl_newImage` (opengl.c:490-498): walks the list,
and on the first node whose texture's `name` equals `path`
(`strcmp(path,cur->tex->name)==0`) increments its `used` count and returns
its texture together with the updated list.  Returns `none` when no node
matches.  (A node holding a NULL texture would make the C code fault on
`cur->tex->name`; the model treats it as a non-match.) -/
def cacheLookup (path : String) : List glTexList → Option (glTexture × List glTexList)
  | [] => none
  | e :: rest =>
    match e.tex with
    | some t =>
      if t.name == some path then
        some (t, ⟨some t, e.used + 1⟩ :: rest)
      else
        (cacheLookup path rest).map fun r => (r.1, e :: r.2)
    | none => (cacheLookup path rest).map fun r => (r.1, e :: r.2)

/-- `gl_newImage` (opengl.c:485-514): returns the cached texture (usage
count incremented) on a hit; otherwise builds a new node with `used = 1`,
stores the result of `gl_loadNewImage` in it — without checking for NULL —
and appends the node at the end of the list. -/
def gl_newImage (assets : String → Option Surface) (path : String)
    (flags : Bool) (st : GLState) : Option glTexture × GLState :=
  match cacheLookup path st.texture_list with
  | some (t, l') => (some t, { st with texture_list := l' })
  | none =>
    let (t?, st') := gl_loadNewImage assets path flags st
    (t?, { st' with texture_list := st'.texture_list ++ [⟨t?, 1⟩] })

/-- `gl_newSprite` (opengl.c:587-601): acquires through `gl_newImage`, then
overwrites the shared texture's sprite-sheet fields in place
(`sx`, `sy`, `sw = w/sx`, `sh = h/sy`).  Because the cache node holds the
same pointer, the in-place write is visible through the cache; the model
replays the update on the node with the same `ptr`. -/
def gl_newSprite (assets : String → Option Surface) (path : String)
    (sx sy : ℤ) (flags : Bool) (st : GLState) : Option glTexture × GLState :=
  match gl_newImage assets path flags st with
  | (none, st') => (none, st')
  | (some t, st') =>
    let t' := { t with sx := (sx : ℚ), sy := (sy : ℚ),
                       sw := t.w / (sx : ℚ), sh := t.h / (sy : ℚ) }
    (some t',
      { st' with texture_list := st'.texture_list.map fun e =>
          match e.tex with
          | some te => if te.ptr = t.ptr then ⟨some t', e.used⟩ else e
          | none => e })

/-- The destruction sequence of `gl_freeTexture` (opengl.c:626-631 and
654-657): `glDeleteTextures`, `free(trans)` if non-NULL, `free(name)` if
non-NULL, `free(texture)`. -/
def destroyEvents (t : glTexture) : List GLEvent :=
  [GLEvent.deleteTex t.texture]
    ++ (if t.trans.isSome then [GLEvent.freeTrans t.ptr] else [])
    ++ (if t.name.isSome then [GLEvent.freeName t.ptr] else [])
    ++ [GLEvent.freeTexMem t.ptr]

/-- The cache scan of `gl_freeTexture` (opengl.c:620-647): finds the node
whose texture pointer equals `p` (`cur->tex == texture`), decrements `used`;
at `used ≤ 0` destroys the texture and unlinks the node.  Returns `none`
when the pointer is in no node. -/
def freeFromList (p : ℕ) : List glTexList → Option (List glTexList × List GLEvent)
  | [] => none
  | e :: rest =>
    match e.tex with
    | some te =>
      if te.ptr = p then
        if e.used - 1 ≤ 0 then some (rest, destroyEvents te)
        else some (⟨some te, e.used - 1⟩ :: rest, [])
      else (freeFromList p rest).map fun r => (e :: r.1, r.2)
    | none => (freeFromList p rest).map fun r => (e :: r.1, r.2)

/-- `gl_freeTexture` (opengl.c:609-660): warns on NULL; otherwise searches
the cache by pointer.  If found, decrements the usage count and destroys the
node once it reaches 0.  If not found, warns (when the texture has a name)
and "frees anyways" — it unconditionally deletes the GPU handle and frees
the host memory of the texture it was handed. -/
def gl_freeTexture (t? : Option glTexture) (st : GLState) : GLState :=
  match t? with
  | none => { st with events := st.events ++ [GLEvent.warnFreeNull] }
  | some t =>
    match freeFromList t.ptr st.texture_list with
    | some (l', evs) =>
      { st with texture_list := l', events := st.events ++ evs }
    | none =>
      { st with events := st.events
          ++ (match t.name with
              | some n => [GLEvent.warnNotFound n]
              | none => [])
          ++ destroyEvents t }

/-- The viewport-relevant fields of `glInfo` (`gl_screen`): logical size
`w,h`, raw/real size `rw,rh`, native size `nw,nh` (C ints, non-negative
here), global scale and the four derived scale factors (doubles). -/
structure glInfoView where
  w : ℕ
  h : ℕ
  rw : ℕ
  rh : ℕ
  nw : ℕ
  nh : ℕ
  scale : ℚ
  wscale : ℚ
  hscale : ℚ
  mxscale : ℚ
  myscale : ℚ
deriving DecidableEq

/-- The viewport set-up block of `gl_init` (opengl.c:1306-1329), as a
function of the incoming screen size `SCREEN_W × SCREEN_H = sw × sh`.
`rw,rh,nw,nh` start at the screen size with `scale = 1`; if the width is
below 600 and is the not-larger axis, the logical height is rescaled with C
integer division (`(gl_screen.h * 600) / SCREEN_W`), the native height
becomes `(gl_screen.rh * SCREEN_W) / 600` and the logical width becomes 600
(symmetrically for the height).  Afterwards the four scale factors are
derived with double division. -/
def gl_initViewport (sw sh : ℕ) : glInfoView :=
  -- opengl.c:1306-1310: rw/rh/nw/nh start at the screen size, scale at 1
  -- (the four scale-factor fields are assigned below, 0 is their zero-
  -- initialised global value).
  let v : glInfoView :=
    { w := sw, h := sh, rw := sw, rh := sh, nw := sw, nh := sh
      scale := 1, wscale := 0, hscale := 0, mxscale := 0, myscale := 0 }
  -- opengl.c:1311-1324: letterboxing branches.
  let v :=
    if sw < 600 ∧ sw ≤ sh then
      { v with scale := (sw : ℚ) / 600
               h := v.h * 600 / sw
               nh := v.rh * sw / 600
               w := 600 }
    else if sh < 600 ∧ sw ≥ sh then
      { v with scale := (sh : ℚ) / 600
               w := v.w * 600 / sh
               nw := v.rw * sh / 600
               h := 600 }
    else v
  -- opengl.c:1326-1329: derived scale factors.
  { v with wscale := (v.nw : ℚ) / (v.w : ℚ)
           hscale := (v.nh : ℚ) / (v.h : ℚ)
           mxscale := (v.w : ℚ) / (v.rw : ℚ)
           myscale := (v.h : ℚ) / (v.rh : ℚ) }

/-- `gl_getSpriteFromDir` (opengl.c:688-712).  `pi` models the double
constant `M_PI`.  The slice width is `shard = 2π/(sy·sx)` (double
arithmetic); the heading is offset by `shard/2` and clamped to be
non-negative; the C cast `(int)(rdir/shard)` truncates (equals `⌊·⌋` on the
clamped non-negative value); the index wraps modulo `sy·sx` only when it
exceeds the last valid index; the cell is `(s % sx, s / sx)` with C integer
operations on the int-truncated `sx`, `sy`. -/
def gl_getSpriteFromDir (pi : ℚ) (t : glTexture) (dir : ℚ) : ℤ × ℤ :=
  let shard : ℚ := 2 * pi / (t.sy * t.sx)
  let rdir0 : ℚ := dir + shard / 2
  let rdir : ℚ := if rdir0 < 0 then 0 else rdir0
  let s : ℤ := truncQ (rdir / shard)
  let sx : ℤ := truncQ t.sx
  let sy : ℤ := truncQ t.sy
  let s : ℤ := if s > sy * sx - 1 then s % (sy * sx) else s
  (s % sx, s / sx)

/-- `resolveDirection` as the spec words it (§4.3 / claim C3): slice width
`shard = 2π/(columns·rows)`; heading offset by `shard/2`; a negative offset
heading floored to 0; slice index `⌊offsetHeading/shard⌋`, wrapped modulo
`columns·rows` only if it exceeds the last valid index; column = index mod
columns, row = index div columns. -/
def resolveDirectionSpec (pi : ℚ) (columns rows : ℤ) (dir : ℚ) : ℤ × ℤ :=
  let n : ℤ := columns * rows
  let shard : ℚ := 2 * pi / (n : ℚ)
  let offset0 : ℚ := dir + shard / 2
  let offset : ℚ := if offset0 < 0 then 0 else offset0
  let idx : ℤ := ⌊offset / shard⌋
  let idx : ℤ := if idx > n - 1 then idx % n else idx
  (idx % columns, idx / columns)

/-- The textured quad emitted by `gl_blitTexture` (opengl.c:731-764): the
bound GPU handle, the four vertices and the four texture coordinates, in
emission order. -/
structure Quad where
  handle : ℕ
  v1 : ℚ × ℚ
  v2 : ℚ × ℚ
  v3 : ℚ × ℚ
  v4 : ℚ × ℚ
  t1 : ℚ × ℚ
  t2 : ℚ × ℚ
  t3 : ℚ × ℚ
  t4 : ℚ × ℚ

/-- `gl_blitTexture` (opengl.c:731-764): with `tw = sw/rw`, `th = sh/rh`,
binds the texture and emits one quad with vertices
`(x,y), (x+sw,y), (x+sw,y+sh), (x,y+sh)` and texture coordinates
`(tx,ty), (tx+tw,ty), (tx+tw,ty+th), (tx,ty+th)`. -/
def gl_blitTexture (texture : glTexture) (x y tx ty : ℚ) : Quad :=
  let tw := texture.sw / texture.rw
  let th := texture.sh / texture.rh
  { handle := texture.texture
    v1 := (x, y)
    v2 := (x + texture.sw, y)
    v3 := (x + texture.sw, y + texture.sh)
    v4 := (x, y + texture.sh)
    t1 := (tx, ty)
    t2 := (tx + tw, ty)
    t3 := (tx + tw, ty + th)
    t4 := (tx, ty + th) }

/-- `gl_blitSprite` (opengl.c:775-794): camera-relative blit.  The screen
size `SCREEN_W,SCREEN_H` (C ints), the camera position and the GUI offsets
are globals in the source, passed here as parameters.  The resolved raw
position is `bx - camera.x - sw/2 + gui_xoff` (resp. y); the blit is culled
(`none`) when `fabs(x) > SCREEN_W/2 + sw` — C integer division in
`SCREEN_W/2` — or the y-analogue; otherwise the texel origin is
`tx = sw·sx/rw`, `ty = sh·(t.sy - sy - 1)/rh` and exactly one quad is
emitted. -/
def gl_blitSprite (screenW screenH : ℤ) (camera guiOff : ℚ × ℚ)
    (sprite : glTexture) (bx b_y : ℚ) (sx sy : ℤ) : Option Quad :=
  let x := bx - camera.1 - sprite.sw / 2 + guiOff.1
  let y := b_y - camera.2 - sprite.sh / 2 + guiOff.2
  if |x| > ((screenW / 2 : ℤ) : ℚ) + sprite.sw ∨
     |y| > ((screenH / 2 : ℤ) : ℚ) + sprite.sh then
    none
  else
    let tx := sprite.sw * (sx : ℚ) / sprite.rw
    let ty := sprite.sh * (sprite.sy - (sy : ℚ) - 1) / sprite.rh
    some (gl_blitTexture sprite x y tx ty)

/-- `gl_blitStaticSprite` (opengl.c:805-819): absolute-coordinates blit, no
culling.  `x = bx - (double)SCREEN_W/2.` (the cast precedes the division, so
this is exact division by 2), texel origin as in `gl_blitSprite`. -/
def gl_blitStaticSprite (screenW screenH : ℤ) (sprite : glTexture)
    (bx b_y : ℚ) (sx sy : ℤ) : Quad :=
  let x := bx - (screenW : ℚ) / 2
  let y := b_y - (screenH : ℚ) / 2
  let tx := sprite.sw * (sx : ℚ) / sprite.rw
  let ty := sprite.sh * (sprite.sy - (sy : ℚ) - 1) / sprite.rh
  gl_blitTexture sprite x y tx ty

/-! ## Helper lemmas -/

lemma shiftLeft_one (i : ℕ) : i <<< 1 = 2 * i := by
  simp [Nat.shiftLeft_eq]; ring

lemma le_gl_potAux (n i : ℕ) :
    1 ≤ i → n ≤ gl_potAux n i ∨ gl_potAux n i = i ∧ n ≤ i := by
  induction i using gl_potAux.induct (n := n) with
  | case1 i hc ih =>
    intro _h1
    rw [gl_potAux, dif_pos hc]
    rcases ih (by rw [shiftLeft_one]; omega) with h | ⟨he, h⟩
    · left; exact h
    · left; rw [he, shiftLeft_one] at *; omega
  | case2 i hc =>
    intro h1
    rw [gl_potAux, dif_neg hc]
    right
    exact ⟨rfl, by omega⟩

lemma gl_potAux_pow2 (n i : ℕ) (a : ℕ) (ha : i = 2 ^ a) :
    ∃ b, gl_potAux n i = 2 ^ b := by
  induction i using gl_potAux.induct (n := n) generalizing a with
  | case1 i hc ih =>
    rw [gl_potAux, dif_pos hc]
    exact ih (a := a + 1) (by rw [shiftLeft_one, ha, pow_succ]; ring)
  | case2 i hc =>
    rw [gl_potAux, dif_neg hc]
    exact ⟨a, ha⟩

lemma gl_potAux_min (n i : ℕ) (b : ℕ) (hn : n ≤ 2 ^ b) :
    ∀ a, i = 2 ^ a → i ≤ 2 ^ b → gl_potAux n i ≤ 2 ^ b := by
  induction i using gl_potAux.induct (n := n) with
  | case1 i hc ih =>
    intro a ha hi
    rw [gl_potAux, dif_pos hc]
    refine ih (a + 1) (by rw [shiftLeft_one, ha, pow_succ]; ring) ?_
    rw [shiftLeft_one, ha]
    have hab : a < b := by
      by_contra hab
      have : (2 : ℕ) ^ b ≤ 2 ^ a := Nat.pow_le_pow_right (by norm_num) (by omega)
      omega
    calc 2 * 2 ^ a = 2 ^ (a + 1) := by rw [pow_succ]; ring
    _ ≤ 2 ^ b := Nat.pow_le_pow_right (by norm_num) (by omega)
  | case2 i hc =>
    intro a ha hi
    rw [gl_potAux, dif_neg hc]
    exact hi

lemma gl_pot_spec (n : ℕ) (hn : 1 ≤ n) :
    n ≤ gl_pot n ∧ (∃ k, gl_pot n = 2 ^ k) ∧
      ∀ m, (∃ j, m = 2 ^ j) → n ≤ m → gl_pot n ≤ m := by
  rw [gl_pot]
  refine ⟨?_, gl_potAux_pow2 n 1 0 (by norm_num), ?_⟩
  · rcases le_gl_potAux n 1 le_rfl with h | ⟨he, h⟩
    · exact h
    · omega
  · rintro m ⟨j, rfl⟩ hm
    exact gl_potAux_min n 1 j hm 0 (by norm_num) Nat.one_le_two_pow

lemma gl_pot_five : gl_pot 5 = 8 := by
  unfold gl_pot
  rw [gl_potAux]; norm_num [Nat.shiftLeft_eq]
  rw [gl_potAux]; norm_num [Nat.shiftLeft_eq]
  rw [gl_potAux]; norm_num [Nat.shiftLeft_eq]
  rw [gl_potAux]; norm_num [Nat.shiftLeft_eq]

lemma gl_pot_sixteen : gl_pot 16 = 16 := by
  unfold gl_pot
  rw [gl_potAux]; norm_num [Nat.shiftLeft_eq]
  rw [gl_potAux]; norm_num [Nat.shiftLeft_eq]
  rw [gl_potAux]; norm_num [Nat.shiftLeft_eq]
  rw [gl_potAux]; norm_num [Nat.shiftLeft_eq]
  rw [gl_potAux]; norm_num [Nat.shiftLeft_eq]

/-- A concrete 5×5 surface used by witnesses. -/
def surf5 : Surface :=
  { w := 5, h := 5, pixels := fun _ _ => 0, colorkey := 1 }

/-! ## Claims -/

/-- C6: for every loaded image of logical size `(w,h)` with `w,h ≥ 1`, the
stored physical texture size `(rw, rh)` is `gl_pot` of the logical size,
which is the smallest power of two ≥ the logical size on each axis; in
particular logical `(5,5)` gives physical `(8,8)` and `(16,16)` stays
`(16,16)`. -/
theorem C6_power_of_two_padding :
    (∀ (s : Surface) (st : GLState), 1 ≤ s.w → 1 ≤ s.h →
      ((gl_loadImage s st).1.rw = (gl_pot s.w : ℚ) ∧
       (gl_loadImage s st).1.rh = (gl_pot s.h : ℚ)) ∧
      (s.w ≤ gl_pot s.w ∧ (∃ k, gl_pot s.w = 2 ^ k) ∧
        ∀ m, (∃ j, m = 2 ^ j) → s.w ≤ m → gl_pot s.w ≤ m) ∧
      (s.h ≤ gl_pot s.h ∧ (∃ k, gl_pot s.h = 2 ^ k) ∧
        ∀ m, (∃ j, m = 2 ^ j) → s.h ≤ m → gl_pot s.h ≤ m)) ∧
    gl_pot 5 = 8 ∧ gl_pot 16 = 16 :=
  ⟨fun s _st hw hh => ⟨⟨rfl, rfl⟩, gl_pot_spec s.w hw, gl_pot_spec s.h hh⟩,
   gl_pot_five, gl_pot_sixteen⟩

/-- Witness for C6 at the concrete surface `surf5` (5×5). -/
theorem C6_power_of_two_padding_witness :
    (gl_loadImage surf5 initGLState).1.rw = (gl_pot 5 : ℚ) ∧
    (gl_loadImage surf5 initGLState).1.rh = (gl_pot 5 : ℚ) :=
  (C6_power_of_two_padding.1 surf5 initGLState (by decide) (by decide)).1

lemma qmul_div_self (a b : ℚ) (hb : b ≠ 0) : b * (a / b) = a := by
  field_simp

/-- C2: viewport recomputation gives scale 1 and native = logical size for
an 800×600 screen; for a 400×600 screen it gives scale `400/600`, rescaled
logical height `600·600/400 = 900` and native height `600·400/600 = 400`;
and in general the derived per-axis scale factors satisfy
`logical · scaleFactor = native` exactly on both axes. -/
theorem C2_viewport_scaling :
    ((gl_initViewport 800 600).scale = 1 ∧
     (gl_initViewport 800 600).w = 800 ∧ (gl_initViewport 800 600).h = 600 ∧
     (gl_initViewport 800 600).nw = 800 ∧ (gl_initViewport 800 600).nh = 600) ∧
    ((gl_initViewport 400 600).scale = 400 / 600 ∧
     (gl_initViewport 400 600).h = 900 ∧
     (gl_initViewport 400 600).nh = 400) ∧
    ∀ sw sh : ℕ, 0 < sw → 0 < sh →
      ((gl_initViewport sw sh).w : ℚ) * (gl_initViewport sw sh).wscale =
        ((gl_initViewport sw sh).nw : ℚ) ∧
      ((gl_initViewport sw sh).h : ℚ) * (gl_initViewport sw sh).hscale =
        ((gl_initViewport sw sh).nh : ℚ) := by
  refine ⟨by decide, by norm_num [gl_initViewport], ?_⟩
  intro sw sh hsw hsh
  unfold gl_initViewport
  split_ifs with h1 h2 <;> dsimp only <;> constructor
  · exact qmul_div_self _ 600 (by norm_num)
  · apply qmul_div_self
    have h6 : sh ≤ sh * 600 := Nat.le_mul_of_pos_right sh (by norm_num)
    have : 0 < sh * 600 / sw := Nat.div_pos (le_trans (le_trans h1.2 h6) le_rfl) hsw
    exact_mod_cast Nat.pos_iff_ne_zero.mp this
  · apply qmul_div_self
    have h6 : sw ≤ sw * 600 := Nat.le_mul_of_pos_right sw (by norm_num)
    have : 0 < sw * 600 / sh := Nat.div_pos (le_trans (le_trans h2.2 h6) le_rfl) hsh
    exact_mod_cast Nat.pos_iff_ne_zero.mp this
  · exact qmul_div_self _ 600 (by norm_num)
  · exact qmul_div_self _ _ (by exact_mod_cast Nat.pos_iff_ne_zero.mp hsw)
  · exact qmul_div_self _ _ (by exact_mod_cast Nat.pos_iff_ne_zero.mp hsh)

/-- Witness for C2: the general scale-factor consistency, instantiated at
the 400×600 screen. -/
theorem C2_viewport_scaling_witness :
    ((gl_initViewport 400 600).w : ℚ) * (gl_initViewport 400 600).wscale =
      ((gl_initViewport 400 600).nw : ℚ) ∧
    ((gl_initViewport 400 600).h : ℚ) * (gl_initViewport 400 600).hscale =
      ((gl_initViewport 400 600).nh : ℚ) :=
  C2_viewport_scaling.2.2 400 600 (by norm_num) (by norm_num)

lemma truncQ_intCast (m : ℤ) : truncQ (m : ℚ) = m := by
  unfold truncQ
  split_ifs with h
  · rw [← Int.cast_neg, Int.floor_intCast]; ring
  · rw [Int.floor_intCast]

lemma truncQ_of_nonneg (q : ℚ) (h : 0 ≤ q) : truncQ q = ⌊q⌋ := by
  unfold truncQ
  rw [if_neg (not_lt.mpr h)]

lemma clamp_nonneg (a : ℚ) : 0 ≤ (if a < 0 then 0 else a) := by
  split_ifs with h
  · exact le_refl 0
  · exact not_lt.mp h

lemma truncQ_four : truncQ (4 : ℚ) = 4 := by
  rw [show (4:ℚ) = ((4:ℤ):ℚ) by norm_num, truncQ_intCast]

lemma truncQ_two : truncQ (2 : ℚ) = 2 := by
  rw [show (2:ℚ) = ((2:ℤ):ℚ) by norm_num, truncQ_intCast]

/-- A concrete 4×2 sprite sheet (256×128 logical image, 64×64 cells). -/
def sheet42 : glTexture :=
  { w := 256, h := 128, sx := 4, sy := 2, sw := 64, sh := 64, rw := 256, rh := 128,
    texture := 0, trans := none, name := none, ptr := 0 }

/-- The source's direction resolution agrees with the spec formula whenever
the sheet dimensions are integral and at least 1 and `pi` is positive. -/
lemma gl_getSpriteFromDir_eq_spec (pi : ℚ) (t : glTexture) (m k : ℤ) (dir : ℚ)
    (hpi : 0 < pi) (hm : 1 ≤ m) (hk : 1 ≤ k)
    (hsx : t.sx = (m : ℚ)) (hsy : t.sy = (k : ℚ)) :
    gl_getSpriteFromDir pi t dir = resolveDirectionSpec pi m k dir := by
  have hn : (0:ℚ) < ((m * k : ℤ) : ℚ) := by
    have : (0:ℤ) < m * k := by positivity
    exact_mod_cast this
  simp only [gl_getSpriteFromDir, resolveDirectionSpec, hsx, hsy, truncQ_intCast]
  rw [show (↑k * ↑m : ℚ) = ((m * k : ℤ) : ℚ) from by push_cast; ring]
  rw [show (k * m : ℤ) = m * k from mul_comm k m]
  rw [truncQ_of_nonneg _ (div_nonneg (clamp_nonneg _) (le_of_lt (by positivity)))]

lemma getSprite42_zero (pi : ℚ) (hpi : 0 < pi) :
    gl_getSpriteFromDir pi sheet42 0 = (0, 0) := by
  simp only [gl_getSpriteFromDir, sheet42, truncQ_four, truncQ_two]
  rw [show ((2:ℚ) * 4) = 8 from by norm_num]
  have hc : ¬((0:ℚ) + 2 * pi / 8 / 2 < 0) := by push_neg; positivity
  rw [if_neg hc]
  have hq : ((0:ℚ) + 2 * pi / 8 / 2) / (2 * pi / 8) = 1/2 := by
    field_simp; ring
  rw [hq, truncQ_of_nonneg _ (by norm_num), show ⌊(1/2:ℚ)⌋ = 0 by norm_num]
  norm_num

lemma getSprite42_neg (pi : ℚ) (hpi : 2/25 ≤ pi) :
    gl_getSpriteFromDir pi sheet42 (-1/100) = (0, 0) := by
  have hpi0 : 0 < pi := lt_of_lt_of_le (by norm_num) hpi
  simp only [gl_getSpriteFromDir, sheet42, truncQ_four, truncQ_two]
  rw [show ((2:ℚ) * 4) = 8 from by norm_num]
  have hc : ¬((-1/100:ℚ) + 2 * pi / 8 / 2 < 0) := by push_neg; linarith
  rw [if_neg hc]
  have hfl : ⌊((-1/100:ℚ) + 2 * pi / 8 / 2) / (2 * pi / 8)⌋ = 0 := by
    rw [Int.floor_eq_zero_iff]
    constructor
    · apply div_nonneg (not_lt.mp hc)
      positivity
    · rw [div_lt_one (by positivity)]
      linarith
  rw [truncQ_of_nonneg _ (div_nonneg (not_lt.mp hc) (by positivity)), hfl]
  norm_num

lemma getSprite42_twopi (pi : ℚ) (hpi : 0 < pi) :
    gl_getSpriteFromDir pi sheet42 (2 * pi) = (0, 0) := by
  simp only [gl_getSpriteFromDir, sheet42, truncQ_four, truncQ_two]
  rw [show ((2:ℚ) * 4) = 8 from by norm_num]
  have hc : ¬((2 * pi : ℚ) + 2 * pi / 8 / 2 < 0) := by push_neg; positivity
  rw [if_neg hc]
  have hq : ((2 * pi : ℚ) + 2 * pi / 8 / 2) / (2 * pi / 8) = 17/2 := by
    field_simp
    ring
  have h17 : ⌊(17/2:ℚ)⌋ = 8 := by
    rw [Int.floor_eq_iff]
    norm_num
  rw [hq, truncQ_of_nonneg _ (by norm_num), h17]
  norm_num

/-- C3: `gl_getSpriteFromDir` computes exactly the spec's resolveDirection
formula (shard `2π/(cols·rows)`, half-shard offset, clamp of a negative
offset heading to 0, floor, wrap modulo `cols·rows` only past the last
index, column = index mod cols, row = index div cols); consequently on the
4×2 sheet heading `-0.01` yields the same cell as heading `0`, and heading
`2π` wraps modulo 8 to the same cell as heading `0`.  `pi` ranges over
rational approximations of π (any value ≥ 0.08 suffices for the concrete
cases, covering every floating value of `M_PI`). -/
theorem C3_direction_to_sprite :
    (∀ (pi : ℚ) (t : glTexture) (m k : ℤ) (dir : ℚ),
        0 < pi → 1 ≤ m → 1 ≤ k → t.sx = (m : ℚ) → t.sy = (k : ℚ) →
        gl_getSpriteFromDir pi t dir = resolveDirectionSpec pi m k dir) ∧
    ∀ pi : ℚ, 2/25 ≤ pi →
      gl_getSpriteFromDir pi sheet42 0 = (0, 0) ∧
      gl_getSpriteFromDir pi sheet42 (-1/100) = gl_getSpriteFromDir pi sheet42 0 ∧
      gl_getSpriteFromDir pi sheet42 (2 * pi) = gl_getSpriteFromDir pi sheet42 0 := by
  refine ⟨fun pi t m k dir hpi hm hk hsx hsy =>
    gl_getSpriteFromDir_eq_spec pi t m k dir hpi hm hk hsx hsy, ?_⟩
  intro pi hpi
  have hpi0 : 0 < pi := lt_of_lt_of_le (by norm_num) hpi
  have h0 := getSprite42_zero pi hpi0
  exact ⟨h0, by rw [getSprite42_neg pi hpi, h0],
         by rw [getSprite42_twopi pi hpi0, h0]⟩

/-- Witness for C3 at `pi = 3.14` on the 4×2 sheet. -/
theorem C3_direction_to_sprite_witness :
    gl_getSpriteFromDir (157/50) sheet42 0 = resolveDirectionSpec (157/50) 4 2 0 ∧
    gl_getSpriteFromDir (157/50) sheet42 (-1/100) =
      gl_getSpriteFromDir (157/50) sheet42 0 :=
  ⟨C3_direction_to_sprite.1 (157/50) sheet42 4 2 0 (by norm_num) (by norm_num)
      (by norm_num) (by norm_num [sheet42]) (by norm_num [sheet42]),
   (C3_direction_to_sprite.2 (157/50) (by norm_num)).2.1⟩

/-- C4: a camera-relative blit whose resolved raw position
`(bx − camera.x − cellWidth/2 + guiOffset.x, …)` exceeds
`screenWidth/2 + cellWidth` in absolute value on the x-axis (or the height
analogue on the y-axis) performs no draw — no quad is produced — and is not
an error; otherwise exactly one textured quad is emitted. -/
theorem C4_camera_relative_culling :
    ∀ (screenW screenH : ℤ) (camera guiOff : ℚ × ℚ) (sprite : glTexture)
      (bx b_y : ℚ) (sx sy : ℤ),
      ((|bx - camera.1 - sprite.sw / 2 + guiOff.1| > ((screenW / 2 : ℤ) : ℚ) + sprite.sw ∨
        |b_y - camera.2 - sprite.sh / 2 + guiOff.2| > ((screenH / 2 : ℤ) : ℚ) + sprite.sh) →
        gl_blitSprite screenW screenH camera guiOff sprite bx b_y sx sy = none) ∧
      (¬(|bx - camera.1 - sprite.sw / 2 + guiOff.1| > ((screenW / 2 : ℤ) : ℚ) + sprite.sw ∨
         |b_y - camera.2 - sprite.sh / 2 + guiOff.2| > ((screenH / 2 : ℤ) : ℚ) + sprite.sh) →
        gl_blitSprite screenW screenH camera guiOff sprite bx b_y sx sy =
          some (gl_blitTexture sprite
            (bx - camera.1 - sprite.sw / 2 + guiOff.1)
            (b_y - camera.2 - sprite.sh / 2 + guiOff.2)
            (sprite.sw * (sx : ℚ) / sprite.rw)
            (sprite.sh * (sprite.sy - (sy : ℚ) - 1) / sprite.rh))) := by
  intro screenW screenH camera guiOff sprite bx b_y sx sy
  constructor
  · intro h
    simp only [gl_blitSprite]
    rw [if_pos h]
  · intro h
    simp only [gl_blitSprite]
    rw [if_neg h]

/-- Witness for C4: a far-off-screen camera-relative blit of the 4×2 sheet is
culled, and an on-screen one emits a quad. -/
theorem C4_camera_relative_culling_witness :
    gl_blitSprite 800 600 (0, 0) (0, 0) sheet42 10000 0 0 0 = none ∧
    gl_blitSprite 800 600 (0, 0) (0, 0) sheet42 0 0 0 0 =
      some (gl_blitTexture sheet42 (0 - 0 - sheet42.sw / 2 + 0)
        (0 - 0 - sheet42.sh / 2 + 0)
        (sheet42.sw * ((0 : ℤ) : ℚ) / sheet42.rw)
        (sheet42.sh * (sheet42.sy - ((0 : ℤ) : ℚ) - 1) / sheet42.rh)) :=
  ⟨(C4_camera_relative_culling 800 600 (0, 0) (0, 0) sheet42 10000 0 0 0).1
      (by norm_num [sheet42]),
   (C4_camera_relative_culling 800 600 (0, 0) (0, 0) sheet42 0 0 0 0).2
      (by norm_num [sheet42])⟩

/-- C7: the blit entry points compute the texel rectangle as
`tx = cellWidth·sx/physicalWidth`,
`ty = cellHeight·(sheetRows − sy − 1)/physicalHeight` with texel size
`(cellWidth/physicalWidth, cellHeight/physicalHeight)`, and the emitted
quad's vertices are exactly the corners of
`[screenPosition, screenPosition + (cellWidth, cellHeight)]` in raw space. -/
theorem C7_texel_addressing_and_quad_extent :
    ∀ (screenW screenH : ℤ) (sprite : glTexture) (bx b_y : ℚ) (sx sy : ℤ),
      (gl_blitStaticSprite screenW screenH sprite bx b_y sx sy =
        gl_blitTexture sprite (bx - (screenW : ℚ) / 2) (b_y - (screenH : ℚ) / 2)
          (sprite.sw * (sx : ℚ) / sprite.rw)
          (sprite.sh * (sprite.sy - (sy : ℚ) - 1) / sprite.rh)) ∧
      (∀ x y tx ty : ℚ,
        (gl_blitTexture sprite x y tx ty).v1 = (x, y) ∧
        (gl_blitTexture sprite x y tx ty).v2 = (x + sprite.sw, y) ∧
        (gl_blitTexture sprite x y tx ty).v3 = (x + sprite.sw, y + sprite.sh) ∧
        (gl_blitTexture sprite x y tx ty).v4 = (x, y + sprite.sh) ∧
        (gl_blitTexture sprite x y tx ty).t1 = (tx, ty) ∧
        (gl_blitTexture sprite x y tx ty).t2 = (tx + sprite.sw / sprite.rw, ty) ∧
        (gl_blitTexture sprite x y tx ty).t3 =
          (tx + sprite.sw / sprite.rw, ty + sprite.sh / sprite.rh) ∧
        (gl_blitTexture sprite x y tx ty).t4 = (tx, ty + sprite.sh / sprite.rh)) ∧
      (¬(|bx - (0:ℚ) - sprite.sw / 2 + 0| > ((screenW / 2 : ℤ) : ℚ) + sprite.sw ∨
         |b_y - (0:ℚ) - sprite.sh / 2 + 0| > ((screenH / 2 : ℤ) : ℚ) + sprite.sh) →
        gl_blitSprite screenW screenH (0, 0) (0, 0) sprite bx b_y sx sy =
          some (gl_blitTexture sprite
            (bx - 0 - sprite.sw / 2 + 0) (b_y - 0 - sprite.sh / 2 + 0)
            (sprite.sw * (sx : ℚ) / sprite.rw)
            (sprite.sh * (sprite.sy - (sy : ℚ) - 1) / sprite.rh))) := by
  intro screenW screenH sprite bx b_y sx sy
  refine ⟨rfl, fun x y tx ty => ⟨rfl, rfl, rfl, rfl, rfl, rfl, rfl, rfl⟩, ?_⟩
  intro h
  simp only [gl_blitSprite]
  rw [if_neg h]

/-- Witness for C7: the non-culled camera-relative case at the origin. -/
theorem C7_texel_addressing_and_quad_extent_witness :
    gl_blitSprite 800 600 (0, 0) (0, 0) sheet42 0 0 1 1 =
      some (gl_blitTexture sheet42
        (0 - 0 - sheet42.sw / 2 + 0) (0 - 0 - sheet42.sh / 2 + 0)
        (sheet42.sw * ((1 : ℤ) : ℚ) / sheet42.rw)
        (sheet42.sh * (sheet42.sy - ((1 : ℤ) : ℚ) - 1) / sheet42.rh)) :=
  (C7_texel_addressing_and_quad_extent 800 600 sheet42 0 0 1 1).2.2
    (by norm_num [sheet42])

/-- The texture record built by a fresh successful load of `path` from state
`st`: the composition of `gl_loadNewImage` (flip, optional transparency map,
name) with `gl_loadImage` (dimensions, GPU handle). -/
def loadedTex (path : String) (flags : Bool) (s : Surface) (st : GLState) : glTexture :=
  { w := s.w, h := s.h, sx := 1, sy := 1, sw := s.w, sh := s.h,
    rw := gl_pot s.w, rh := gl_pot s.h, texture := st.nextHandle,
    trans := if flags then some (SDL_MapTrans (SDL_VFlipSurface s)) else none,
    name := some path, ptr := st.nextPtr }

/-- A cache miss with a successful load appends a fresh node with usage
count 1 holding `loadedTex`. -/
lemma gl_newImage_fresh (assets : String → Option Surface) (p : String)
    (flags : Bool) (s : Surface) (st : GLState)
    (hs : assets p = some s)
    (hmiss : cacheLookup p st.texture_list = none) :
    gl_newImage assets p flags st =
      (some (loadedTex p flags s st),
       { st with
           texture_list := st.texture_list ++ [⟨some (loadedTex p flags s st), 1⟩],
           nextPtr := st.nextPtr + 1, nextHandle := st.nextHandle + 1 }) := by
  simp only [gl_newImage, hmiss, gl_loadNewImage, hs, gl_loadImage, loadedTex,
    SDL_VFlipSurface]

/-- C1: acquiring a path a second time while its entry exists returns the
very same resource (in particular the same `gpuHandle`), without reloading
or touching anything but the usage count, which becomes 2; one release
leaves the entry present with usage count 1 and emits no destruction; the
second release destroys the GPU handle, name (and transparency bits when
present) and removes the entry from the cache. -/
theorem C1_cache_dedup_refcount :
    ∀ (assets : String → Option Surface) (p : String) (flags : Bool) (s : Surface),
      assets p = some s →
      ∃ t : glTexture,
        gl_newImage assets p flags initGLState =
          (some t,
           { initGLState with
               texture_list := [⟨some t, 1⟩], nextPtr := 1, nextHandle := 1 }) ∧
        (∀ st : GLState, st.texture_list = [⟨some t, 1⟩] →
          gl_newImage assets p flags st =
            (some t, { st with texture_list := [⟨some t, 2⟩] })) ∧
        (∀ st : GLState, st.texture_list = [⟨some t, 2⟩] →
          gl_freeTexture (some t) st = { st with texture_list := [⟨some t, 1⟩] }) ∧
        (∀ st : GLState, st.texture_list = [⟨some t, 1⟩] →
          gl_freeTexture (some t) st =
            { st with texture_list := [], events := st.events ++ destroyEvents t }) := by
  intro assets p flags s hs
  refine ⟨loadedTex p flags s initGLState, ?_, ?_, ?_, ?_⟩
  · have := gl_newImage_fresh assets p flags s initGLState hs rfl
    simpa [initGLState] using this
  · intro st hst
    simp [gl_newImage, hst, cacheLookup, loadedTex]
  · intro st hst
    simp [gl_freeTexture, hst, freeFromList]
  · intro st hst
    simp [gl_freeTexture, hst, freeFromList]

/-- Witness for C1 at the concrete path `"a.png"` with surface `surf5`. -/
theorem C1_cache_dedup_refcount_witness :
    ∃ t : glTexture,
      gl_newImage (fun _ => some surf5) "a.png" false initGLState =
        (some t,
         { initGLState with
             texture_list := [⟨some t, 1⟩], nextPtr := 1, nextHandle := 1 }) ∧
      (∀ st : GLState, st.texture_list = [⟨some t, 1⟩] →
        gl_newImage (fun _ => some surf5) "a.png" false st =
          (some t, { st with texture_list := [⟨some t, 2⟩] })) ∧
      (∀ st : GLState, st.texture_list = [⟨some t, 2⟩] →
        gl_freeTexture (some t) st = { st with texture_list := [⟨some t, 1⟩] }) ∧
      (∀ st : GLState, st.texture_list = [⟨some t, 1⟩] →
        gl_freeTexture (some t) st =
          { st with texture_list := [], events := st.events ++ destroyEvents t }) :=
  C1_cache_dedup_refcount (fun _ => some surf5) "a.png" false surf5 rfl

/-- C10: acquiring an already-cached identity through `gl_newSprite`
overwrites the shared resource's `sx`, `sy`, `sw = w/sx`, `sh = h/sy`
in place — the cache entry (the storage every earlier holder of this
identity points at) now carries the new sheet geometry — while every other
field (`gpuHandle`, logical/physical sizes, name, transparency bits) is
unchanged, as witnessed by the record-update form `{ t with sx := …, sy :=
…, sw := …, sh := … }`. -/
theorem C10_sprite_geometry_overwrite :
    ∀ (assets : String → Option Surface) (p : String) (flags : Bool)
      (s : Surface) (sx sy : ℤ),
      assets p = some s →
      ∃ t : glTexture,
        gl_newImage assets p flags initGLState =
          (some t,
           { initGLState with
               texture_list := [⟨some t, 1⟩], nextPtr := 1, nextHandle := 1 }) ∧
        ∀ st : GLState, st.texture_list = [⟨some t, 1⟩] →
          gl_newSprite assets p sx sy flags st =
            (some { t with sx := (sx : ℚ), sy := (sy : ℚ),
                           sw := t.w / (sx : ℚ), sh := t.h / (sy : ℚ) },
             { st with texture_list :=
                 [⟨some { t with sx := (sx : ℚ), sy := (sy : ℚ),
                                 sw := t.w / (sx : ℚ), sh := t.h / (sy : ℚ) }, 2⟩] }) := by
  intro assets p flags s sx sy hs
  refine ⟨loadedTex p flags s initGLState, ?_, ?_⟩
  · have := gl_newImage_fresh assets p flags s initGLState hs rfl
    simpa [initGLState] using this
  · intro st hst
    simp [gl_newSprite, gl_newImage, hst, cacheLookup, loadedTex]

/-- Witness for C10 at `"a.png"`, surface `surf5`, sheet 4×2. -/
theorem C10_sprite_geometry_overwrite_witness :
    ∃ t : glTexture,
      gl_newImage (fun _ => some surf5) "a.png" false initGLState =
        (some t,
         { initGLState with
             texture_list := [⟨some t, 1⟩], nextPtr := 1, nextHandle := 1 }) ∧
      ∀ st : GLState, st.texture_list = [⟨some t, 1⟩] →
        gl_newSprite (fun _ => some surf5) "a.png" 4 2 false st =
          (some { t with sx := ((4 : ℤ) : ℚ), sy := ((2 : ℤ) : ℚ),
                         sw := t.w / ((4 : ℤ) : ℚ), sh := t.h / ((2 : ℤ) : ℚ) },
           { st with texture_list :=
               [⟨some { t with sx := ((4 : ℤ) : ℚ), sy := ((2 : ℤ) : ℚ),
                               sw := t.w / ((4 : ℤ) : ℚ),
                               sh := t.h / ((2 : ℤ) : ℚ) }, 2⟩] }) :=
  C10_sprite_geometry_overwrite (fun _ => some surf5) "a.png" false surf5 4 2 rfl

/-- Counterexample to C8 as stated: when the asset read/decode fails,
`gl_newImage` does return an explicit failure value (`none`), but the cache
collection is *not* left unchanged — a node with usage count 1 and no
resource is still appended (opengl.c:500-513 inserts the node without
checking `gl_loadNewImage`'s result for NULL). -/
theorem C8_load_failure_counterexample :
    (gl_newImage (fun _ => none) "a.png" false initGLState).1 = none ∧
    (gl_newImage (fun _ => none) "a.png" false initGLState).2.texture_list ≠
      initGLState.texture_list := by
  constructor
  · rfl
  · intro h
    simp [gl_newImage, gl_loadNewImage, cacheLookup, initGLState] at h

/-- C8 (amended): for a path not in the cache, a failing load returns the
explicit failure value `none` and does not crash, and a successful load
builds an entry with usage count 1 holding the new resource; however, on
failure the cache is *not* left unchanged: a node with usage count 1 and a
null resource is appended all the same. -/
theorem C8_load_failure_atomicity_amended :
    ∀ (assets : String → Option Surface) (p : String) (flags : Bool) (st : GLState),
      cacheLookup p st.texture_list = none →
      (assets p = none →
        gl_newImage assets p flags st =
          (none, { st with texture_list := st.texture_list ++ [⟨none, 1⟩] })) ∧
      ∀ s : Surface, assets p = some s →
        gl_newImage assets p flags st =
          (some (loadedTex p flags s st),
           { st with
               texture_list := st.texture_list ++ [⟨some (loadedTex p flags s st), 1⟩],
               nextPtr := st.nextPtr + 1, nextHandle := st.nextHandle + 1 }) := by
  intro assets p flags st hmiss
  constructor
  · intro hfail
    simp [gl_newImage, hmiss, gl_loadNewImage, hfail]
  · intro s hs
    exact gl_newImage_fresh assets p flags s st hs hmiss

/-- Witness for the amended C8 at a concrete failing load. -/
theorem C8_load_failure_atomicity_amended_witness :
    gl_newImage (fun _ => none) "a.png" false initGLState =
      (none, { initGLState with
                 texture_list := initGLState.texture_list ++ [⟨none, 1⟩] }) :=
  (C8_load_failure_atomicity_amended (fun _ => none) "a.png" false initGLState rfl).1 rfl

/-- Counterexample to C9 as stated: acquire `"a.png"` once (usage count 1),
release it (count reaches 0, the GPU handle is deleted — one `deleteTex`
event), then release the same resource again: the not-found fallback of
`gl_freeTexture` (opengl.c:650-657, "Free anyways") deletes the GPU handle a
second time, so the claim's "performs no second free" is false. -/
theorem C9_double_release_counterexample :
    (gl_freeTexture (some (loadedTex "a.png" false surf5 initGLState))
        ((gl_newImage (fun _ => some surf5) "a.png" false initGLState).2)).events.count
      (GLEvent.deleteTex (loadedTex "a.png" false surf5 initGLState).texture) = 1 ∧
    (gl_freeTexture (some (loadedTex "a.png" false surf5 initGLState))
        (gl_freeTexture (some (loadedTex "a.png" false surf5 initGLState))
          ((gl_newImage (fun _ => some surf5) "a.png" false initGLState).2))).events.count
      (GLEvent.deleteTex (loadedTex "a.png" false surf5 initGLState).texture) = 2 := by
  simp [loadedTex, gl_newImage, gl_loadNewImage, gl_loadImage, cacheLookup,
    gl_freeTexture, freeFromList, destroyEvents, initGLState, surf5,
    SDL_VFlipSurface, List.count_cons]

/-- C9 (amended): releasing a resource whose entry was already destroyed and
removed leaves the cache collection unchanged (no corruption) and emits a
warning (the resource is named), but it does *not* skip freeing: the
fallback deletes the GPU handle and frees the host memory a second time. -/
theorem C9_double_release_amended :
    ∀ (t : glTexture) (st : GLState),
      freeFromList t.ptr st.texture_list = none →
      (gl_freeTexture (some t) st).texture_list = st.texture_list ∧
      (gl_freeTexture (some t) st).events =
        st.events
          ++ (match t.name with
              | some n => [GLEvent.warnNotFound n]
              | none => [])
          ++ destroyEvents t := by
  intro t st h
  simp [gl_freeTexture, h]

/-- Witness for the amended C9: releasing the (never-cached) `sheet42`
record against the empty cache. -/
theorem C9_double_release_amended_witness :
    (gl_freeTexture (some sheet42) initGLState).texture_list =
      initGLState.texture_list ∧
    (gl_freeTexture (some sheet42) initGLState).events =
      initGLState.events
        ++ (match sheet42.name with
            | some n => [GLEvent.warnNotFound n]
            | none => [])
        ++ destroyEvents sheet42 :=
  C9_double_release_amended sheet42 initGLState rfl

lemma one_shiftLeft_testBit (m k : ℕ) : (1 <<< m).testBit k = decide (k = m) := by
  rw [Nat.shiftLeft_eq, one_mul]
  by_cases h : k = m
  · subst h
    simp [Nat.testBit_two_pow_self]
  · simp [h, Nat.testBit_two_pow_of_ne (Ne.symm h)]

lemma mapTransStep_testBit (s : Surface) (t : ℕ → ℕ) (p : ℕ × ℕ) (addr k : ℕ) :
    ((mapTransStep s t p) addr).testBit k =
      ((t addr).testBit k ||
        (decide (addr = (p.1 * s.w + p.2) / 8) &&
         decide (k = (p.1 * s.w + p.2) % 8) &&
         !(SDL_IsTrans s p.2 p.1))) := by
  unfold mapTransStep
  by_cases ha : addr = (p.1 * s.w + p.2) / 8
  · subst ha
    rw [Function.update_same, Nat.testBit_lor]
    cases hT : SDL_IsTrans s p.2 p.1 <;>
      simp [hT, one_shiftLeft_testBit, -Nat.testBit_shiftLeft]
  · rw [Function.update_noteq ha]
    simp [ha]

lemma foldl_mapTransStep_testBit (s : Surface) (L : List (ℕ × ℕ)) (t0 : ℕ → ℕ)
    (addr k : ℕ) :
    ((L.foldl (mapTransStep s) t0) addr).testBit k =
      ((t0 addr).testBit k ||
        L.any (fun p => decide (addr = (p.1 * s.w + p.2) / 8) &&
                        decide (k = (p.1 * s.w + p.2) % 8) &&
                        !(SDL_IsTrans s p.2 p.1))) := by
  induction L generalizing t0 with
  | nil => simp
  | cons p L ih =>
    rw [List.foldl_cons, ih, mapTransStep_testBit]
    simp [Bool.or_assoc]

/-- Row-major linear indices are injective: distinct pixels touch distinct
bit positions. -/
lemma rowmajor_inj {w i j y x : ℕ} (hj : j < w) (hx : x < w)
    (h : i * w + j = y * w + x) : i = y ∧ j = x := by
  have hw : 0 < w := lt_of_le_of_lt (Nat.zero_le _) hj
  have h1 : (i * w + j) / w = i := by
    rw [Nat.add_comm, Nat.add_mul_div_right _ _ hw, Nat.div_eq_of_lt hj, Nat.zero_add]
  have h2 : (y * w + x) / w = y := by
    rw [Nat.add_comm, Nat.add_mul_div_right _ _ hw, Nat.div_eq_of_lt hx, Nat.zero_add]
  have hi : i = y := by rw [← h1, ← h2, h]
  refine ⟨hi, ?_⟩
  subst hi
  omega

lemma mem_pixelList (s : Surface) (i j : ℕ) :
    (i, j) ∈ pixelList s ↔ i < s.h ∧ j < s.w := by
  simp [pixelList]

/-- The heart of the transparency map: after `SDL_MapTrans`, bit
`(y·w+x) mod 8` of byte `(y·w+x)/8` is set exactly when pixel `(x,y)` is
not transparent. -/
lemma SDL_MapTrans_testBit (s : Surface) (x y : ℕ) (hx : x < s.w) (hy : y < s.h) :
    ((SDL_MapTrans s) ((y * s.w + x) / 8)).testBit ((y * s.w + x) % 8) =
      !(SDL_IsTrans s x y) := by
  rw [SDL_MapTrans, foldl_mapTransStep_testBit]
  simp only [Nat.zero_testBit, Bool.false_or]
  cases hT : SDL_IsTrans s x y
  · -- opaque pixel: the (y, x) iteration sets exactly this bit
    simp only [Bool.not_false]
    rw [List.any_eq_true]
    refine ⟨(y, x), (mem_pixelList s y x).mpr ⟨hy, hx⟩, ?_⟩
    simp [hT]
  · -- transparent pixel: no iteration sets this bit
    simp only [Bool.not_true]
    rw [List.any_eq_false]
    rintro ⟨i, j⟩ hmem
    rw [mem_pixelList] at hmem
    by_cases hij : (i, j) = (y, x)
    · rw [Prod.mk.injEq] at hij
      simp [hij.1, hij.2, hT]
    · by_cases h8 : (y * s.w + x) / 8 = (i * s.w + j) / 8 ∧
          (y * s.w + x) % 8 = (i * s.w + j) % 8
      · exfalso
        have heq : i * s.w + j = y * s.w + x := by omega
        obtain ⟨hi, hj⟩ := rowmajor_inj hmem.2 hx heq
        exact hij (by rw [Prod.mk.injEq]; exact ⟨hi, hj⟩)
      · have hAB : (decide ((y * s.w + x) / 8 = (i * s.w + j) / 8) &&
            decide ((y * s.w + x) % 8 = (i * s.w + j) % 8)) = false := by
          rcases not_and_or.mp h8 with h | h <;> simp [h]
        simp only [hAB, Bool.false_and]
        exact Bool.false_ne_true

lemma and_one_shiftLeft_beq_zero (a m : ℕ) :
    (a &&& (1 <<< m) == 0) = !a.testBit m := by
  rw [Nat.shiftLeft_eq, one_mul, Nat.and_two_pow]
  cases hb : a.testBit m
  · simp
  · have h2 : (2:ℕ) ^ m ≠ 0 := by positivity
    simp [h2]

/-- C5: for every surface and pixel `(x,y)` in range, `SDL_MapTrans` sets
bit `(y·w+x)` (row-major, 8 pixels per byte, bit `(y·w+x) mod 8` of byte
`(y·w+x)/8`) exactly when the pixel's colour differs from the transparent
colour key, and `gl_isTrans` on a texture carrying that map afterwards
returns true exactly when the pixel equals the colour key. -/
theorem C5_transparency_roundtrip :
    ∀ (s : Surface) (x y : ℕ), x < s.w → y < s.h →
      (((SDL_MapTrans s) ((y * s.w + x) / 8)).testBit ((y * s.w + x) % 8) = true ↔
        s.pixels x y ≠ s.colorkey) ∧
      ∀ t : glTexture, t.w = (s.w : ℚ) → t.trans = some (SDL_MapTrans s) →
        (gl_isTrans t x y = true ↔ s.pixels x y = s.colorkey) := by
  intro s x y hx hy
  have hbit := SDL_MapTrans_testBit s x y hx hy
  constructor
  · rw [hbit]
    simp [SDL_IsTrans]
  · intro t htw htr
    unfold gl_isTrans
    have htr2 : truncQ t.w = (s.w : ℤ) := by
      rw [htw, show ((s.w : ℕ) : ℚ) = ((s.w : ℤ) : ℚ) by push_cast; ring, truncQ_intCast]
    rw [htr, htr2]
    simp only [Int.toNat_natCast, Option.getD_some]
    rw [and_one_shiftLeft_beq_zero, hbit]
    simp [SDL_IsTrans]

/-- A 2×1 surface whose left pixel equals the colour key. -/
def surfT : Surface := { w := 2, h := 1, pixels := fun x _ => x, colorkey := 0 }

/-- A texture carrying `surfT`'s transparency map. -/
def texT : glTexture :=
  { w := 2, h := 1, sx := 1, sy := 1, sw := 2, sh := 1, rw := 2, rh := 1,
    texture := 0, trans := some (SDL_MapTrans surfT), name := none, ptr := 0 }

/-- Witness for C5: on `surfT`, the key-coloured pixel reads transparent and
the other pixel reads opaque. -/
theorem C5_transparency_roundtrip_witness :
    (gl_isTrans texT 0 0 = true ↔ surfT.pixels 0 0 = surfT.colorkey) ∧
    (gl_isTrans texT 1 0 = true ↔ surfT.pixels 1 0 = surfT.colorkey) :=
  ⟨(C5_transparency_roundtrip surfT 0 0 (by norm_num [surfT]) (by norm_num [surfT])).2
      texT (by norm_num [texT, surfT]) rfl,
   (C5_transparency_roundtrip surfT 1 0 (by norm_num [surfT]) (by norm_num [surfT])).2
      texT (by norm_num [texT, surfT]) rfl⟩
